import Mathlib

/-!
# Verification of the strimo-plan-util purchase automation

Shallow embedding of the repository's purchase module (the credential
generator `generateUsernameFromEmail` / `generatePassword` and the
purchase orchestrator `purchasePlan`, in both of its source variants),
together with proofs of the specification claims about them.

Modelling conventions:
* JavaScript strings are Lean `String`s; character-level operations are
  carried out on their `List Char` data.
* `process.env.X` reads and optional string parameters are `Option String`;
  JavaScript falsiness of a possibly-undefined string (`!x`) is "the value,
  with `undefined` read as the empty string, equals the empty string".
* The wall clock is an explicit `DateTime` argument, the random source an
  explicit `Nat → Fin 26` argument (each `Math.floor(Math.random()*26)`
  draw yields a value in `0..25`).
* Every awaited browser-automation call (`launch`, `newPage`, `goto`,
  `type`, `click`, `select`, `waitForSelector`, `waitForNavigation`,
  `waitForTimeout`) consults an oracle `PageEnv` that decides, per call,
  whether the call resolves or rejects with a JavaScript exception; the
  performed calls are recorded in a trace.  `browser.close()` is modelled
  as always resolving: the claims quantify over behaviours of
  configuration, clock, randomness and the provider page, and teardown of
  the local browser process is none of these.
* A thrown JavaScript value is either an `Error` object carrying a message
  or some non-`Error` value (`JsError.nonError`), matching the source's
  `error instanceof Error ? error.message : "Unknown error occurred"`.
-/

namespace StrimoPlan

/-! ## Characters and decimal rendering -/

/-- The character class kept by the source's `replace(/[^a-zA-Z0-9]/g, "")`:
ASCII letters and digits. -/
def isAsciiAlphanum (c : Char) : Bool :=
  ('a' ≤ c && c ≤ 'z') || ('A' ≤ c && c ≤ 'Z') || ('0' ≤ c && c ≤ '9')

/-- Fuel-bounded decimal rendering; the fuel only bounds the recursion
depth and `n + 1` is always sufficient (the argument shrinks by a factor
of ten per step). -/
def natDigitsCore : Nat → Nat → List Char
  | 0, _ => []
  | fuel + 1, n =>
    if n < 10 then [Nat.digitChar n]
    else natDigitsCore fuel (n / 10) ++ [Nat.digitChar (n % 10)]

/-- Decimal digit list of a natural number, most significant first:
the denotation of JavaScript's `Number.prototype.toString()` on the
natural numbers produced by `Date` accessors. -/
def natDigits (n : Nat) : List Char := natDigitsCore (n + 1) n

/-- `String.prototype.padStart(2, "0")` on the character list. -/
def pad2 (l : List Char) : List Char := List.replicate (2 - l.length) '0' ++ l

/-- `String.prototype.slice(-2)` on the character list: the last two
characters (the whole list if shorter). -/
def last2 (l : List Char) : List Char := l.drop (l.length - 2)

/-! ## Wall-clock time -/

/-- The fields of a JavaScript `Date` that the source reads:
`getFullYear`, `getMonth` (0-based!), `getDate`, `getHours`, `getMinutes`. -/
structure DateTime where
  fullYear : Nat
  month : Nat
  day : Nat
  hour : Nat
  minute : Nat
deriving DecidableEq

/-- Ranges guaranteed by a real `Date` at any wall-clock call time
(year of at least two decimal digits, month in `0..11`, day in `1..31`,
hour in `0..23`, minute in `0..59`). -/
def DateTime.Valid (t : DateTime) : Prop :=
  10 ≤ t.fullYear ∧ t.month ≤ 11 ∧ 1 ≤ t.day ∧ t.day ≤ 31 ∧
    t.hour ≤ 23 ∧ t.minute ≤ 59

instance (t : DateTime) : Decidable t.Valid := by
  unfold DateTime.Valid; infer_instance

/-- The `YYMMDDHHmm` timestamp of `generateUsernameFromEmail`:
last two digits of the year, then zero-padded month+1, day, hours,
minutes. -/
def timestampChars (t : DateTime) : List Char :=
  last2 (natDigits t.fullYear) ++ pad2 (natDigits (t.month + 1)) ++
    pad2 (natDigits t.day) ++ pad2 (natDigits t.hour) ++ pad2 (natDigits t.minute)

/-! ## Credential generator -/

/-- JavaScript `s.includes(pat)`: substring containment. -/
def jsIncludes (s pat : String) : Bool := decide (pat.data <:+: s.data)

/-- `email.split("@")[0]`: the characters before the first `@`
(the whole string when there is no `@`). -/
def beforeAt (s : String) : List Char := s.data.takeWhile (fun c => c ≠ '@')

/-- `generateUsernameFromEmail` (src/unnamed/part_001 lines 10-40, identical
in part_002): validate the email, strip non-alphanumerics from the part
before the `@`, lower-case it, keep the first six characters upper-cased,
and append the `YYMMDDHHmm` timestamp.  A `throw new Error(msg)` is an
`Except.error msg`. -/
def generateUsernameFromEmail (now : DateTime) (email : String) :
    Except String String :=
  if email = "" || !jsIncludes email "@" then
    .error "Invalid email address"
  else
    let emailPrefix := beforeAt email
    let cleanedPrefix := (emailPrefix.filter isAsciiAlphanum).map Char.toLower
    if cleanedPrefix = [] then
      .error "Email prefix is invalid after cleaning"
    else
      let prefixPart := (cleanedPrefix.take 6).map Char.toUpper
      .ok (String.mk (prefixPart ++ timestampChars now))

/-- The password alphabet `"abcdefghijklmnopqrstuvwxyz"`. -/
def charsetChars : List Char := "abcdefghijklmnopqrstuvwxyz".data

/-- `generatePassword` (src/unnamed/part_001 lines 45-53): concatenate
`length` characters of the charset picked by the random draws.  The
source's default for `length` is 8. -/
def generatePassword (rand : Nat → Fin 26) (length : Nat := 8) : String :=
  String.mk ((List.range length).map fun i =>
    charsetChars.get ((by decide : charsetChars.length = 26) ▸ rand i))

/-! ## Configuration, results, and the page oracle -/

/-- The environment variables the purchase module reads (`process.env.X`
is `undefined` or a string). -/
structure Config where
  IPTV_PROVIDER_URL : Option String
  IPTV_PROVIDER_USERNAME : Option String
  IPTV_PROVIDER_PASSWORD : Option String
  IPTV_SERVER_URL : Option String
  IPTV_BACKUP_SERVERS : Option String
  MAG_PORTAL_URL : Option String

/-- Read a possibly-undefined string, with `undefined` as `""`; JavaScript
falsiness (`!x`) of such a value is equality of this read with `""`. -/
def envStr (v : Option String) : String := v.getD ""

/-- JavaScript `x || d` on a possibly-undefined string. -/
def jsOr (v : Option String) (d : String) : String :=
  if envStr v = "" then d else envStr v

/-- The `orderType` parameter. -/
inductive OrderType where
  | STANDARD
  | MAG_DEVICE
deriving DecidableEq

/-- The `PurchaseResult` interface; optional fields are absent (`none`)
unless assigned. -/
structure PurchaseResult where
  username : String
  password : String
  success : Bool
  error : Option String := none
  macAddress : Option String := none
  serverUrl : Option String := none
  portalURL : Option String := none
  m3uUrl : Option String := none
  epgUrl : Option String := none
  backupServers : Option String := none
deriving DecidableEq

/-- A thrown JavaScript value: an `Error` with a message, or anything
else. -/
inductive JsError where
  | errorObj (msg : String)
  | nonError
deriving DecidableEq

/-- `error instanceof Error ? error.message : "Unknown error occurred"`. -/
def errMessage : JsError → String
  | .errorObj m => m
  | .nonError => "Unknown error occurred"

/-- The result built by the `catch` block of `purchasePlan`. -/
def failResult (e : JsError) : PurchaseResult :=
  { username := "", password := "", success := false,
    error := some (errMessage e) }

/-- One awaited browser-automation call, as recorded in the trace.
`goto` and `waitForNavigation` carry their `waitUntil` argument,
`waitForTimeout` its delay in milliseconds. -/
inductive Action where
  | launch
  | newPage
  | goto (url : String) (waitUntil : String)
  | typeText (selector text : String)
  | click (selector : String)
  | select (selector value : String)
  | waitForSelector (selector : String)
  | waitForNavigation (waitUntil : String)
  | waitForTimeout (ms : Nat)
  | closeBrowser
deriving DecidableEq

/-- Behaviour of the browser and the provider page during one invocation:
`outcome n` decides whether the `n`-th awaited automation call resolves
(`none`) or rejects with a thrown value; `urlAfterNav` is what `page.url()`
returns after the initial navigation. -/
structure PageEnv where
  outcome : Nat → Option JsError
  urlAfterNav : String

/-- Progress of one invocation: index of the next awaited call and the
calls performed so far. -/
structure RunState where
  step : Nat
  trace : List Action
deriving DecidableEq

/-- Outcome of the `try` block: an abrupt exit carrying the thrown value,
whether the browser had been acquired, and the state; or a result and the
state. -/
abbrev TryOut := (JsError × Bool × RunState) ⊕ (PurchaseResult × RunState)

/-- `await` one automation call inside the `try` block: record the call
and ask the oracle whether it rejects; on resolution continue with `k`,
on rejection exit abruptly (`acq` says whether the browser was already
acquired at this point). -/
def stepA (env : PageEnv) (a : Action) (acq : Bool) (s : RunState)
    (k : RunState → TryOut) : TryOut :=
  match env.outcome s.step with
  | none => k ⟨s.step + 1, s.trace ++ [a]⟩
  | some e => .inl (e, acq, ⟨s.step + 1, s.trace ++ [a]⟩)

/-- Append the `browser.close()` of the success path (line 214-217 of
part_001) to the trace. -/
def closeHere (s : RunState) : RunState := ⟨s.step, s.trace ++ [.closeBrowser]⟩

/-! ## The purchase orchestrator, variant of src/unnamed/part_001

`page.setDefaultTimeout` and the `page.on("dialog", ...)` registration are
synchronous, never-throwing, and unobservable in any claim; they are not
recorded.  `console.log` output is not modelled. -/

/-- Lines 194-245 of part_001, common to both order branches: advance to
the next form section, submit, wait for the confirmation navigation and
the 2000 ms settling delay, close the browser, and assemble the
success result. -/
def finishOrder (cfg : Config) (env : PageEnv) (orderType : OrderType)
    (macAddress : Option String) (username password : String)
    (s : RunState) : TryOut :=
  stepA env (.click "#user-details > ul > li > a") true s fun s =>
  stepA env (.waitForSelector "#submit_button") true s fun s =>
  stepA env (.click "#submit_button") true s fun s =>
  stepA env (.waitForNavigation "networkidle0") true s fun s =>
  stepA env (.waitForTimeout 2000) true s fun s =>
  let s := closeHere s
  let serverUrl := jsOr cfg.IPTV_SERVER_URL "http://ky-tv.cc:8080"
  let backupServers := jsOr cfg.IPTV_BACKUP_SERVERS ""
  let portalURL := jsOr cfg.MAG_PORTAL_URL ""
  let result : PurchaseResult := { username, password, success := true }
  if orderType = .STANDARD then
    .inr ({ result with
      serverUrl := some serverUrl,
      backupServers := some backupServers,
      m3uUrl := some (serverUrl ++ "/get.php?username=" ++ username ++
        "&password=" ++ password ++ "&type=m3u_plus&output=ts"),
      epgUrl := some (serverUrl ++ "/xmltv.php?username=" ++ username ++
        "&password=" ++ password) }, s)
  else
    .inr ({ result with
      macAddress := macAddress,
      portalURL := some portalURL }, s)

/-- Lines 160-192 of part_001: the order-type branch filling in
credentials or the MAC address. -/
def doOrder (cfg : Config) (env : PageEnv) (now : DateTime)
    (rand : Nat → Fin 26) (email : String) (orderType : OrderType)
    (macAddress : Option String) (s : RunState) : TryOut :=
  match orderType with
  | .STANDARD =>
    match generateUsernameFromEmail now email with
    | .error m => .inl (.errorObj m, true, s)
    | .ok username =>
      let password := generatePassword rand
      stepA env (.typeText "#username" username) true s fun s =>
      stepA env (.typeText "#password" password) true s fun s =>
      finishOrder cfg env orderType macAddress username password s
  | .MAG_DEVICE =>
    if envStr macAddress = "" then
      .inl (.errorObj "macAddress is required for MAG_DEVICE orders", true, s)
    else
      stepA env (.typeText "#mac" (envStr macAddress)) true s fun s =>
      finishOrder cfg env orderType macAddress (envStr macAddress) "" s

/-- The `try` block of `purchasePlan` (part_001 lines 87-245): launch,
navigate, conditionally log in, select the plan, and hand over to the
order branch. -/
def purchaseTry (cfg : Config) (env : PageEnv) (now : DateTime)
    (rand : Nat → Fin 26) (planId email : String) (orderType : OrderType)
    (macAddress : Option String) : TryOut :=
  stepA env .launch false ⟨0, []⟩ fun s =>
  stepA env .newPage true s fun s =>
  let baseUrl := envStr cfg.IPTV_PROVIDER_URL
  if baseUrl = "" then
    .inl (.errorObj "IPTV_PROVIDER_URL not set in environment variables",
      true, s)
  else
    let endpoint := if orderType = .MAG_DEVICE then "/mag" else "/line"
    let providerUrl := baseUrl ++ endpoint
    stepA env (.goto providerUrl "networkidle0") true s fun s =>
    let afterLogin : RunState → TryOut := fun s =>
      stepA env (.select "#package" planId) true s fun s =>
      doOrder cfg env now rand email orderType macAddress s
    if jsIncludes env.urlAfterNav "login" then
      let providerUsername := envStr cfg.IPTV_PROVIDER_USERNAME
      let providerPassword := envStr cfg.IPTV_PROVIDER_PASSWORD
      if providerUsername = "" || providerPassword = "" then
        .inl (.errorObj
          "IPTV provider credentials not set in environment variables",
          true, s)
      else
        stepA env (.typeText "#username" providerUsername) true s fun s =>
        stepA env (.typeText "#password" providerPassword) true s fun s =>
        stepA env (.waitForNavigation "networkidle0") true s fun s =>
        stepA env (.click "#login_button") true s fun s =>
        afterLogin s
    else
      afterLogin s

/-- `purchasePlan` (src/unnamed/part_001 lines 77-261): run the `try`
block; on an abrupt exit, close the browser if it was acquired and return
the failure result.  Returns the result together with the trace of
performed automation calls.  `isFreeTrial` is accepted (with source
default `false`) and never consulted. -/
def purchasePlan (cfg : Config) (env : PageEnv) (now : DateTime)
    (rand : Nat → Fin 26) (planId email : String)
    (orderType : OrderType := .STANDARD) (macAddress : Option String := none)
    (isFreeTrial : Bool := false) : PurchaseResult × List Action :=
  match purchaseTry cfg env now rand planId email orderType macAddress with
  | .inr (r, s) => (r, s.trace)
  | .inl (e, acq, s) =>
      let s := if acq then closeHere s else s
      (failResult e, s.trace)

/-! ## The purchase orchestrator, variant of src/unnamed/part_002

Identical control flow except: every navigation wait uses `networkidle2`,
and there is no `waitForTimeout` settling delay after the final
submission. -/

/-- Lines 172-211 of part_002: submit and assemble, with no settling
delay. -/
def finishOrderV2 (cfg : Config) (env : PageEnv) (orderType : OrderType)
    (macAddress : Option String) (username password : String)
    (s : RunState) : TryOut :=
  stepA env (.click "#user-details > ul > li > a") true s fun s =>
  stepA env (.waitForSelector "#submit_button") true s fun s =>
  stepA env (.click "#submit_button") true s fun s =>
  stepA env (.waitForNavigation "networkidle2") true s fun s =>
  let s := closeHere s
  let serverUrl := jsOr cfg.IPTV_SERVER_URL "http://ky-tv.cc:8080"
  let backupServers := jsOr cfg.IPTV_BACKUP_SERVERS ""
  let portalURL := jsOr cfg.MAG_PORTAL_URL ""
  let result : PurchaseResult := { username, password, success := true }
  if orderType = .STANDARD then
    .inr ({ result with
      serverUrl := some serverUrl,
      backupServers := some backupServers,
      m3uUrl := some (serverUrl ++ "/get.php?username=" ++ username ++
        "&password=" ++ password ++ "&type=m3u_plus&output=ts"),
      epgUrl := some (serverUrl ++ "/xmltv.php?username=" ++ username ++
        "&password=" ++ password) }, s)
  else
    .inr ({ result with
      macAddress := macAddress,
      portalURL := some portalURL }, s)

/-- Lines 142-170 of part_002: the order-type branch. -/
def doOrderV2 (cfg : Config) (env : PageEnv) (now : DateTime)
    (rand : Nat → Fin 26) (email : String) (orderType : OrderType)
    (macAddress : Option String) (s : RunState) : TryOut :=
  match orderType with
  | .STANDARD =>
    match generateUsernameFromEmail now email with
    | .error m => .inl (.errorObj m, true, s)
    | .ok username =>
      let password := generatePassword rand
      stepA env (.typeText "#username" username) true s fun s =>
      stepA env (.typeText "#password" password) true s fun s =>
      finishOrderV2 cfg env orderType macAddress username password s
  | .MAG_DEVICE =>
    if envStr macAddress = "" then
      .inl (.errorObj "macAddress is required for MAG_DEVICE orders", true, s)
    else
      stepA env (.typeText "#mac" (envStr macAddress)) true s fun s =>
      finishOrderV2 cfg env orderType macAddress (envStr macAddress) "" s

/-- The `try` block of part_002's `purchasePlan` (lines 86-211). -/
def purchaseTryV2 (cfg : Config) (env : PageEnv) (now : DateTime)
    (rand : Nat → Fin 26) (planId email : String) (orderType : OrderType)
    (macAddress : Option String) : TryOut :=
  stepA env .launch false ⟨0, []⟩ fun s =>
  stepA env .newPage true s fun s =>
  let baseUrl := envStr cfg.IPTV_PROVIDER_URL
  if baseUrl = "" then
    .inl (.errorObj "IPTV_PROVIDER_URL not set in environment variables",
      true, s)
  else
    let endpoint := if orderType = .MAG_DEVICE then "/mag" else "/line"
    let providerUrl := baseUrl ++ endpoint
    stepA env (.goto providerUrl "networkidle2") true s fun s =>
    let afterLogin : RunState → TryOut := fun s =>
      stepA env (.select "#package" planId) true s fun s =>
      doOrderV2 cfg env now rand email orderType macAddress s
    if jsIncludes env.urlAfterNav "login" then
      let providerUsername := envStr cfg.IPTV_PROVIDER_USERNAME
      let providerPassword := envStr cfg.IPTV_PROVIDER_PASSWORD
      if providerUsername = "" || providerPassword = "" then
        .inl (.errorObj
          "IPTV provider credentials not set in environment variables",
          true, s)
      else
        stepA env (.typeText "#username" providerUsername) true s fun s =>
        stepA env (.typeText "#password" providerPassword) true s fun s =>
        stepA env (.waitForNavigation "networkidle2") true s fun s =>
        stepA env (.click "#login_button") true s fun s =>
        afterLogin s
    else
      afterLogin s

/-- `purchasePlan` of src/unnamed/part_002 (lines 77-226). -/
def purchasePlanV2 (cfg : Config) (env : PageEnv) (now : DateTime)
    (rand : Nat → Fin 26) (planId email : String)
    (orderType : OrderType := .STANDARD) (macAddress : Option String := none)
    (isFreeTrial : Bool := false) : PurchaseResult × List Action :=
  match purchaseTryV2 cfg env now rand planId email orderType macAddress with
  | .inr (r, s) => (r, s.trace)
  | .inl (e, acq, s) =>
      let s := if acq then closeHere s else s
      (failResult e, s.trace)

/-! ## Verification-side abbreviations

`mkSuccess` and `tailActions` name, for use in the inversion lemmas
below, the success result assembled at part_001 lines 219-242 and the
trace suffix every successful part_001 run ends with;
`stdPopulated`/`magPopulated` express the field-group invariant of the
spec, `isWaitTimeout` recognises a settling-delay call in a trace, and
`cfgW`/`cfgE`/`envW`/`nowW`/`randW` are concrete witness inputs (a benign
page on which every call resolves and no login redirect happens, a
configuration with only the provider URL set, an empty configuration, a
fixed clock, a constant random source). -/
/-- The success result assembled at part_001 lines 219-242. -/
def mkSuccess (cfg : Config) (orderType : OrderType) (macAddress : Option String)
    (username password : String) : PurchaseResult :=
  let serverUrl := jsOr cfg.IPTV_SERVER_URL "http://ky-tv.cc:8080"
  let result : PurchaseResult := { username, password, success := true }
  if orderType = .STANDARD then
    { result with
      serverUrl := some serverUrl,
      backupServers := some (jsOr cfg.IPTV_BACKUP_SERVERS ""),
      m3uUrl := some (serverUrl ++ "/get.php?username=" ++ username ++
        "&password=" ++ password ++ "&type=m3u_plus&output=ts"),
      epgUrl := some (serverUrl ++ "/xmltv.php?username=" ++ username ++
        "&password=" ++ password) }
  else
    { result with
      macAddress := macAddress,
      portalURL := some (jsOr cfg.MAG_PORTAL_URL "") }

/-- The trace suffix of a successful run of part_001. -/
def tailActions : List Action :=
  [.click "#user-details > ul > li > a", .waitForSelector "#submit_button",
   .click "#submit_button", .waitForNavigation "networkidle0",
   .waitForTimeout 2000, .closeBrowser]


/-- The STANDARD-only field group (`serverUrl`, `backupServers`,
`m3uUrl`, `epgUrl`) is populated. -/
def stdPopulated (r : PurchaseResult) : Prop :=
  r.serverUrl ≠ none ∧ r.backupServers ≠ none ∧ r.m3uUrl ≠ none ∧
    r.epgUrl ≠ none

instance (r : PurchaseResult) : Decidable (stdPopulated r) := by
  unfold stdPopulated; infer_instance

/-- The MAG_DEVICE-only field group (`macAddress`, `portalURL`) is
populated. -/
def magPopulated (r : PurchaseResult) : Prop :=
  r.macAddress ≠ none ∧ r.portalURL ≠ none

instance (r : PurchaseResult) : Decidable (magPopulated r) := by
  unfold magPopulated; infer_instance

/-- Is the call a fixed-timeout wait? -/
def isWaitTimeout : Action → Bool
  | .waitForTimeout _ => true
  | _ => false

def cfgW : Config := ⟨some "http://prov", none, none, none, none, none⟩

def cfgE : Config := ⟨none, none, none, none, none, none⟩

def envW : PageEnv := ⟨fun _ => none, "http://prov/line"⟩

def nowW : DateTime := ⟨2025, 0, 1, 0, 0⟩

def randW : Nat → Fin 26 := fun _ => ⟨0, by decide⟩

/-! ## Character-level lemmas -/

/-- Uppercase ASCII letter or digit: the character class the spec promises
for the username prefix. -/
def isUpperOrDigit (c : Char) : Bool :=
  ('A' ≤ c && c ≤ 'Z') || ('0' ≤ c && c ≤ '9')

theorem char_le_iff {a b : Char} : a ≤ b ↔ a.toNat ≤ b.toNat := by
  rw [Char.le_def, UInt32.le_def, BitVec.le_def]; rfl

theorem toNat_ofNat_valid {n : Nat} (h : n < 55296) :
    (Char.ofNat n).toNat = n := by
  have hv : n.isValidChar := Or.inl h
  rw [Char.ofNat, dif_pos hv]
  simp [Char.ofNatAux, Char.toNat, UInt32.toNat]

theorem isAsciiAlphanum_iff {c : Char} :
    isAsciiAlphanum c = true ↔
      (97 ≤ c.toNat ∧ c.toNat ≤ 122) ∨ (65 ≤ c.toNat ∧ c.toNat ≤ 90) ∨
        (48 ≤ c.toNat ∧ c.toNat ≤ 57) := by
  have h97 : ('a' : Char).toNat = 97 := rfl
  have h122 : ('z' : Char).toNat = 122 := rfl
  have h65 : ('A' : Char).toNat = 65 := rfl
  have h90 : ('Z' : Char).toNat = 90 := rfl
  have h48 : ('0' : Char).toNat = 48 := rfl
  have h57 : ('9' : Char).toNat = 57 := rfl
  simp [isAsciiAlphanum, char_le_iff, h97, h122, h65, h90, h48, h57, or_assoc]

theorem char_toNat_inj {a b : Char} (h : a.toNat = b.toNat) : a = b :=
  Char.ext (UInt32.toNat.inj h)

theorem isUpperOrDigit_iff {c : Char} :
    isUpperOrDigit c = true ↔
      (65 ≤ c.toNat ∧ c.toNat ≤ 90) ∨ (48 ≤ c.toNat ∧ c.toNat ≤ 57) := by
  have h65 : ('A' : Char).toNat = 65 := rfl
  have h90 : ('Z' : Char).toNat = 90 := rfl
  have h48 : ('0' : Char).toNat = 48 := rfl
  have h57 : ('9' : Char).toNat = 57 := rfl
  simp [isUpperOrDigit, char_le_iff, h65, h90, h48, h57]

theorem toLower_of_upper {c : Char} (h1 : 65 ≤ c.toNat) (h2 : c.toNat ≤ 90) :
    (Char.toLower c).toNat = c.toNat + 32 := by
  rw [Char.toLower, if_pos ⟨h1, h2⟩]
  exact toNat_ofNat_valid (by omega)

theorem toLower_of_not_upper {c : Char} (h : ¬ (65 ≤ c.toNat ∧ c.toNat ≤ 90)) :
    Char.toLower c = c := by
  rw [Char.toLower, if_neg h]

theorem toUpper_of_lower {c : Char} (h1 : 97 ≤ c.toNat) (h2 : c.toNat ≤ 122) :
    (Char.toUpper c).toNat = c.toNat - 32 := by
  rw [Char.toUpper, if_pos ⟨h1, h2⟩]
  exact toNat_ofNat_valid (by omega)

theorem toUpper_of_not_lower {c : Char} (h : ¬ (97 ≤ c.toNat ∧ c.toNat ≤ 122)) :
    Char.toUpper c = c := by
  rw [Char.toUpper, if_neg h]

/-- Lower-casing then upper-casing an ASCII alphanumeric character is the
same as upper-casing it (lower-casing first is what the source does). -/
theorem toUpper_toLower_alnum {c : Char} (h : isAsciiAlphanum c = true) :
    (Char.toLower c).toUpper = Char.toUpper c := by
  rcases isAsciiAlphanum_iff.1 h with ⟨h1, h2⟩ | ⟨h1, h2⟩ | ⟨h1, h2⟩
  · rw [toLower_of_not_upper (by omega)]
  · have hl := toLower_of_upper h1 h2
    have hup : (Char.toLower c).toUpper.toNat = c.toNat := by
      rw [toUpper_of_lower (by omega) (by omega)]
      omega
    have hru : Char.toUpper c = c := toUpper_of_not_lower (by omega)
    rw [hru]
    exact char_toNat_inj hup
  · rw [toLower_of_not_upper (by omega)]

/-- Upper-casing an ASCII alphanumeric character yields an uppercase
letter or a digit. -/
theorem isUpperOrDigit_toUpper {c : Char} (h : isAsciiAlphanum c = true) :
    isUpperOrDigit (Char.toUpper c) = true := by
  rcases isAsciiAlphanum_iff.1 h with ⟨h1, h2⟩ | ⟨h1, h2⟩ | ⟨h1, h2⟩
  · have := toUpper_of_lower h1 h2
    exact isUpperOrDigit_iff.2 (Or.inl (by omega))
  · rw [toUpper_of_not_lower (by omega)]
    exact isUpperOrDigit_iff.2 (Or.inl ⟨h1, h2⟩)
  · rw [toUpper_of_not_lower (by omega)]
    exact isUpperOrDigit_iff.2 (Or.inr ⟨h1, h2⟩)

/-! ## Decimal-rendering and timestamp lemmas -/

theorem digitChar_isDigit {d : Nat} (h : d < 10) :
    (Nat.digitChar d).isDigit = true := by
  interval_cases d <;> decide

theorem natDigitsCore_digits (fuel : Nat) :
    ∀ n, ∀ c ∈ natDigitsCore fuel n, c.isDigit = true := by
  induction fuel with
  | zero => intro n c hc; simp [natDigitsCore] at hc
  | succ fuel ih =>
      intro n c hc
      rw [natDigitsCore] at hc
      split at hc
      · simp at hc; subst hc; exact digitChar_isDigit (by omega)
      · rcases List.mem_append.1 hc with h1 | h2
        · exact ih _ c h1
        · simp at h2; subst h2
          exact digitChar_isDigit (Nat.mod_lt _ (by omega))

theorem natDigits_digits (n : Nat) : ∀ c ∈ natDigits n, c.isDigit = true :=
  natDigitsCore_digits _ n

theorem natDigitsCore_length_pos (fuel n : Nat) :
    1 ≤ (natDigitsCore (fuel + 1) n).length := by
  rw [natDigitsCore]
  split
  · simp
  · simp

theorem natDigits_length_pos (n : Nat) : 1 ≤ (natDigits n).length :=
  natDigitsCore_length_pos n n

theorem natDigitsCore_small {fuel n : Nat} (hf : 0 < fuel) (hn : n < 10) :
    natDigitsCore fuel n = [Nat.digitChar n] := by
  cases fuel with
  | zero => omega
  | succ f => rw [natDigitsCore, if_pos hn]

theorem natDigits_length_le {n : Nat} (h : n ≤ 99) :
    (natDigits n).length ≤ 2 := by
  rw [natDigits]
  by_cases h10 : n < 10
  · rw [natDigitsCore_small (by omega) h10]; simp
  · rw [natDigitsCore, if_neg h10,
      natDigitsCore_small (by omega) (by omega : n / 10 < 10)]
    simp

theorem natDigits_length_ge {n : Nat} (h : 10 ≤ n) :
    2 ≤ (natDigits n).length := by
  obtain ⟨m, hm⟩ : ∃ m, n = m + 1 := ⟨n - 1, by omega⟩
  rw [natDigits, natDigitsCore, if_neg (by omega)]
  have hp : ∀ k, 1 ≤ (natDigitsCore n k).length := by
    intro k; rw [hm]; exact natDigitsCore_length_pos m k
  have hp := hp (n / 10)
  simp only [List.length_append, List.length_singleton]
  omega

theorem pad2_length {l : List Char} (h : l.length ≤ 2) :
    (pad2 l).length = 2 := by
  simp [pad2]; omega

theorem last2_length {l : List Char} (h : 2 ≤ l.length) :
    (last2 l).length = 2 := by
  simp [last2]; omega

theorem pad2_digits {l : List Char} (h : ∀ c ∈ l, c.isDigit = true) :
    ∀ c ∈ pad2 l, c.isDigit = true := by
  intro c hc
  rcases List.mem_append.1 hc with h1 | h2
  · rw [List.eq_of_mem_replicate h1]; decide
  · exact h c h2

theorem last2_digits {l : List Char} (h : ∀ c ∈ l, c.isDigit = true) :
    ∀ c ∈ last2 l, c.isDigit = true :=
  fun c hc => h c (List.drop_subset _ _ hc)

/-- For a valid wall-clock time the `YYMMDDHHmm` timestamp has exactly ten
characters. -/
theorem timestampChars_length {t : DateTime} (h : t.Valid) :
    (timestampChars t).length = 10 := by
  obtain ⟨hy, hmo, _, hd, hh, hmi⟩ := h
  simp only [timestampChars, List.length_append]
  rw [last2_length (natDigits_length_ge hy),
    pad2_length (natDigits_length_le (by omega)),
    pad2_length (natDigits_length_le (by omega)),
    pad2_length (natDigits_length_le (by omega)),
    pad2_length (natDigits_length_le (by omega))]

/-- Every character of the timestamp is a decimal digit. -/
theorem timestampChars_digits (t : DateTime) :
    ∀ c ∈ timestampChars t, c.isDigit = true := by
  intro c hc
  simp only [timestampChars, List.mem_append] at hc
  rcases hc with ((((h | h) | h) | h) | h)
  · exact last2_digits (natDigits_digits _) c h
  · exact pad2_digits (natDigits_digits _) c h
  · exact pad2_digits (natDigits_digits _) c h
  · exact pad2_digits (natDigits_digits _) c h
  · exact pad2_digits (natDigits_digits _) c h

/-! ## Substring-check lemma -/

theorem jsIncludes_at_iff {s : String} :
    jsIncludes s "@" = true ↔ '@' ∈ s.data := by
  rw [jsIncludes, decide_eq_true_iff]
  show ['@'] <:+: s.data ↔ _
  constructor
  · rintro ⟨l, r, h⟩
    rw [← h]; simp
  · intro h
    obtain ⟨l, r, hr⟩ := List.append_of_mem h
    exact ⟨l, r, by rw [hr]; simp⟩

/-! ## Claims about the credential generator -/

/-- C3: for every email containing an `@` with at least one ASCII
alphanumeric character before the first `@`, and every fixed wall-clock
time, `generateUsernameFromEmail` returns the pre-`@` substring with every
non-alphanumeric character stripped, upper-cased and truncated to at most
6 characters, followed by exactly the 10-digit zero-padded `YYMMDDHHmm`
timestamp; hence the result has length at most 16 and consists of
uppercase letters/digits followed by exactly 10 digits.  (Determinism
given a fixed clock is inherent: the embedding is a pure function of the
`DateTime` and the email.) -/
theorem generateUsername_ok (now : DateTime) (email : String)
    (hv : now.Valid) (hat : '@' ∈ email.data)
    (halnum : ∃ c ∈ beforeAt email, isAsciiAlphanum c = true) :
    ∃ u, generateUsernameFromEmail now email = .ok u ∧
      u.data = (((beforeAt email).filter isAsciiAlphanum).map
          Char.toUpper).take 6 ++ timestampChars now ∧
      (∀ c ∈ (((beforeAt email).filter isAsciiAlphanum).map
          Char.toUpper).take 6, isUpperOrDigit c = true) ∧
      (timestampChars now).length = 10 ∧
      (∀ c ∈ timestampChars now, c.isDigit = true) ∧
      u.length ≤ 16 := by
  have hne : email ≠ "" := by
    intro h
    rw [h] at hat
    simp at hat
  have hinc : jsIncludes email "@" = true := jsIncludes_at_iff.2 hat
  have hfilter : (beforeAt email).filter isAsciiAlphanum ≠ [] := by
    obtain ⟨c, hc, hac⟩ := halnum
    intro h
    have := List.filter_eq_nil_iff.1 h c hc
    simp [hac] at this
  have hclean : ((beforeAt email).filter isAsciiAlphanum).map Char.toLower
      ≠ [] := by
    simpa using hfilter
  have hcomm : ((((beforeAt email).filter isAsciiAlphanum).map
        Char.toLower).take 6).map Char.toUpper =
      (((beforeAt email).filter isAsciiAlphanum).map Char.toUpper).take 6 := by
    rw [← List.map_take, ← List.map_take, List.map_map]
    refine List.map_congr_left fun c hc => ?_
    exact toUpper_toLower_alnum
      (List.of_mem_filter (List.take_subset _ _ hc))
  have heq : generateUsernameFromEmail now email =
      .ok (String.mk
        ((((beforeAt email).filter isAsciiAlphanum).map Char.toUpper).take 6
          ++ timestampChars now)) := by
    rw [generateUsernameFromEmail, if_neg (by simp [hne, hinc]),
      if_neg (by simpa using hclean)]
    rw [hcomm]
  refine ⟨_, heq, rfl, ?_, timestampChars_length hv,
    timestampChars_digits now, ?_⟩
  · intro c hc
    obtain ⟨d, hd, rfl⟩ := List.mem_map.1 (List.take_subset _ _ hc)
    exact isUpperOrDigit_toUpper (List.of_mem_filter hd)
  · show (_ ++ _ : List Char).length ≤ 16
    rw [List.length_append, timestampChars_length hv]
    have := List.length_take_le 6
      (((beforeAt email).filter isAsciiAlphanum).map Char.toUpper)
    omega

/-- Witness for C3 at `email = "jane.doe@example.com"` and wall-clock
2025-01-01 00:00 (the generated username is `JANEDO2501010000`). -/
theorem generateUsername_ok_witness :
    ∃ u, generateUsernameFromEmail ⟨2025, 0, 1, 0, 0⟩ "jane.doe@example.com"
        = .ok u ∧
      u.data = (((beforeAt "jane.doe@example.com").filter
          isAsciiAlphanum).map Char.toUpper).take 6 ++
          timestampChars ⟨2025, 0, 1, 0, 0⟩ ∧
      (∀ c ∈ (((beforeAt "jane.doe@example.com").filter
          isAsciiAlphanum).map Char.toUpper).take 6,
          isUpperOrDigit c = true) ∧
      (timestampChars ⟨2025, 0, 1, 0, 0⟩).length = 10 ∧
      (∀ c ∈ timestampChars ⟨2025, 0, 1, 0, 0⟩, c.isDigit = true) ∧
      u.length ≤ 16 :=
  generateUsername_ok ⟨2025, 0, 1, 0, 0⟩ "jane.doe@example.com"
    (by decide) (by decide) (by decide)

/-- C4: `generateUsernameFromEmail` fails (with one of its two
`Error`s, the spec's `InvalidInput`) if and only if the email is empty,
contains no `@`, or the portion before the first `@` contains no ASCII
alphanumeric character; for every other email it returns normally. -/
theorem generateUsername_error_iff (now : DateTime) (email : String) :
    (∃ m, generateUsernameFromEmail now email = .error m) ↔
      (email = "" ∨ '@' ∉ email.data ∨
        ∀ c ∈ beforeAt email, isAsciiAlphanum c = false) := by
  by_cases h1 : email = ""
  · rw [generateUsernameFromEmail, if_pos (by simp [h1])]
    exact iff_of_true ⟨_, rfl⟩ (Or.inl h1)
  · by_cases h2 : jsIncludes email "@" = true
    · have hat : '@' ∈ email.data := jsIncludes_at_iff.1 h2
      by_cases h3 : (beforeAt email).filter isAsciiAlphanum = []
      · rw [generateUsernameFromEmail, if_neg (by simp [h1, h2]),
          if_pos (by simp [h3])]
        have hall : ∀ c ∈ beforeAt email, isAsciiAlphanum c = false := by
          intro c hc
          have := List.filter_eq_nil_iff.1 h3 c hc
          simpa using this
        exact iff_of_true ⟨_, rfl⟩ (Or.inr (Or.inr hall))
      · rw [generateUsernameFromEmail, if_neg (by simp [h1, h2]),
          if_neg (by simpa using h3)]
        have hex : ¬ ∀ c ∈ beforeAt email, isAsciiAlphanum c = false := by
          intro hall
          exact h3 (List.filter_eq_nil_iff.2 fun c hc => by simp [hall c hc])
        simp [h1, hat, hex]
    · have hat : '@' ∉ email.data := fun hm => h2 (jsIncludes_at_iff.2 hm)
      rw [generateUsernameFromEmail,
        if_pos (by simp [Bool.eq_false_iff.2 h2])]
      exact iff_of_true ⟨_, rfl⟩ (Or.inr (Or.inl hat))


/-! ## Orchestrator inversion lemmas -/

theorem finishOrder_inr {cfg env ot mac u p s r s'}
    (h : finishOrder cfg env ot mac u p s = Sum.inr (r, s')) :
    r = mkSuccess cfg ot mac u p ∧ s'.trace = s.trace ++ tailActions := by
  rw [finishOrder] at h
  simp only [stepA] at h
  repeat' split at h
  all_goals first
    | exact (Sum.noConfusion h)
    | (simp only [Sum.inr.injEq, Prod.mk.injEq] at h
       obtain ⟨hr, hs⟩ := h
       subst hr hs
       exact ⟨by simp [mkSuccess, *], by simp [closeHere, tailActions]⟩)

theorem finishOrder_inl {cfg env ot mac u p s e acq s'}
    (h : finishOrder cfg env ot mac u p s = Sum.inl (e, acq, s')) :
    acq = true ∧
      s'.trace.count Action.closeBrowser = s.trace.count Action.closeBrowser := by
  rw [finishOrder] at h
  simp only [stepA] at h
  repeat' split at h
  all_goals first
    | exact (Sum.noConfusion h)
    | (simp only [Sum.inl.injEq, Prod.mk.injEq] at h
       obtain ⟨he, ha, hs⟩ := h
       subst ha hs
       exact ⟨rfl, by simp [List.count_append]⟩)

theorem doOrder_inr {cfg env now rand email ot mac s r s'}
    (h : doOrder cfg env now rand email ot mac s = Sum.inr (r, s')) :
    ∃ u p,
      r = mkSuccess cfg ot mac u p ∧
      s'.trace.count Action.closeBrowser = s.trace.count Action.closeBrowser + 1 ∧
      (∃ t, s'.trace = t ++ tailActions) ∧
      ((ot = .STANDARD ∧ generateUsernameFromEmail now email = .ok u ∧
          p = generatePassword rand) ∨
        (ot = .MAG_DEVICE ∧ envStr mac ≠ "" ∧ u = envStr mac ∧ p = "")) := by
  cases ot with
  | STANDARD =>
    rw [doOrder] at h
    simp only [stepA] at h
    split at h
    case _ m heq => exact (Sum.noConfusion h)
    case _ u heq =>
      repeat' split at h
      all_goals first
        | exact (Sum.noConfusion h)
        | (obtain ⟨hr, hs⟩ := finishOrder_inr h
           refine ⟨u, generatePassword rand, hr, ?_, ⟨_, hs⟩, Or.inl ⟨rfl, heq, rfl⟩⟩
           rw [hs]
           simp [List.count_append, tailActions])
  | MAG_DEVICE =>
    rw [doOrder] at h
    simp only [stepA] at h
    split at h
    case _ hmac => exact (Sum.noConfusion h)
    case _ hmac =>
      repeat' split at h
      all_goals first
        | exact (Sum.noConfusion h)
        | (obtain ⟨hr, hs⟩ := finishOrder_inr h
           refine ⟨envStr mac, "", hr, ?_, ⟨_, hs⟩, Or.inr ⟨rfl, hmac, rfl, rfl⟩⟩
           rw [hs]
           simp [List.count_append, tailActions])

theorem doOrder_inl {cfg env now rand email ot mac s e acq s'}
    (h : doOrder cfg env now rand email ot mac s = Sum.inl (e, acq, s')) :
    acq = true ∧
      s'.trace.count Action.closeBrowser = s.trace.count Action.closeBrowser := by
  cases ot with
  | STANDARD =>
    rw [doOrder] at h
    simp only [stepA] at h
    split at h
    case _ m heq =>
      simp only [Sum.inl.injEq, Prod.mk.injEq] at h
      obtain ⟨he, ha, hs⟩ := h
      subst ha hs
      exact ⟨rfl, rfl⟩
    case _ u heq =>
      repeat' split at h
      all_goals first
        | (obtain ⟨ha, hc⟩ := finishOrder_inl h
           exact ⟨ha, by rw [hc]; simp [List.count_append]⟩)
        | (simp only [Sum.inl.injEq, Prod.mk.injEq] at h
           obtain ⟨he, ha, hs⟩ := h
           subst ha hs
           exact ⟨rfl, by simp [List.count_append]⟩)
  | MAG_DEVICE =>
    rw [doOrder] at h
    simp only [stepA] at h
    split at h
    case _ hmac =>
      simp only [Sum.inl.injEq, Prod.mk.injEq] at h
      obtain ⟨he, ha, hs⟩ := h
      subst ha hs
      exact ⟨rfl, rfl⟩
    case _ hmac =>
      repeat' split at h
      all_goals first
        | (obtain ⟨ha, hc⟩ := finishOrder_inl h
           exact ⟨ha, by rw [hc]; simp [List.count_append]⟩)
        | (simp only [Sum.inl.injEq, Prod.mk.injEq] at h
           obtain ⟨he, ha, hs⟩ := h
           subst ha hs
           exact ⟨rfl, by simp [List.count_append]⟩)


theorem purchaseTry_inr {cfg env now rand planId email ot mac r s'}
    (h : purchaseTry cfg env now rand planId email ot mac = Sum.inr (r, s')) :
    env.outcome 0 = none ∧
    ∃ u p,
      r = mkSuccess cfg ot mac u p ∧
      s'.trace.count Action.closeBrowser = 1 ∧
      (∃ t, s'.trace = t ++ tailActions) ∧
      ((ot = .STANDARD ∧ generateUsernameFromEmail now email = .ok u ∧
          p = generatePassword rand) ∨
        (ot = .MAG_DEVICE ∧ envStr mac ≠ "" ∧ u = envStr mac ∧ p = "")) := by
  rw [purchaseTry] at h
  simp only [stepA] at h
  generalize (if ot = OrderType.MAG_DEVICE then "/mag" else "/line") = ep at h
  repeat' split at h
  all_goals first
    | exact (Sum.noConfusion h)
    | (obtain ⟨u, p, hr, hc, ht, hcred⟩ := doOrder_inr h
       refine ⟨by assumption, u, p, hr, ?_, ht, hcred⟩
       rw [hc]
       simp [List.count_append])

theorem purchaseTry_inl {cfg env now rand planId email ot mac e acq s'}
    (h : purchaseTry cfg env now rand planId email ot mac = Sum.inl (e, acq, s')) :
    (acq = true ↔ env.outcome 0 = none) ∧
      s'.trace.count Action.closeBrowser = 0 := by
  rw [purchaseTry] at h
  simp only [stepA] at h
  generalize (if ot = OrderType.MAG_DEVICE then "/mag" else "/line") = ep at h
  repeat' split at h
  all_goals first
    | (obtain ⟨ha, hc⟩ := doOrder_inl h
       refine ⟨by simp [ha, *], by rw [hc]; simp [List.count_append]⟩)
    | (simp only [Sum.inl.injEq, Prod.mk.injEq] at h
       obtain ⟨he, ha, hs⟩ := h
       subst ha hs
       refine ⟨by simp [*], by simp [List.count_append]⟩)


/-! ## Helper lemmas about the assembled results -/

theorem mkSuccess_std (cfg : Config) (mac : Option String) (u p : String) :
    mkSuccess cfg .STANDARD mac u p =
      { username := u, password := p, success := true,
        serverUrl := some (jsOr cfg.IPTV_SERVER_URL "http://ky-tv.cc:8080"),
        backupServers := some (jsOr cfg.IPTV_BACKUP_SERVERS ""),
        m3uUrl := some (jsOr cfg.IPTV_SERVER_URL "http://ky-tv.cc:8080" ++
          "/get.php?username=" ++ u ++ "&password=" ++ p ++
          "&type=m3u_plus&output=ts"),
        epgUrl := some (jsOr cfg.IPTV_SERVER_URL "http://ky-tv.cc:8080" ++
          "/xmltv.php?username=" ++ u ++ "&password=" ++ p) } := by
  simp [mkSuccess]

theorem mkSuccess_mag (cfg : Config) (mac : Option String) (u p : String) :
    mkSuccess cfg .MAG_DEVICE mac u p =
      { username := u, password := p, success := true,
        macAddress := mac,
        portalURL := some (jsOr cfg.MAG_PORTAL_URL "") } := by
  simp [mkSuccess]

theorem mkSuccess_basic (cfg : Config) (ot : OrderType) (mac : Option String)
    (u p : String) :
    (mkSuccess cfg ot mac u p).success = true ∧
      (mkSuccess cfg ot mac u p).error = none ∧
      (mkSuccess cfg ot mac u p).username = u ∧
      (mkSuccess cfg ot mac u p).password = p := by
  cases ot
  · rw [mkSuccess_std]; exact ⟨rfl, rfl, rfl, rfl⟩
  · rw [mkSuccess_mag]; exact ⟨rfl, rfl, rfl, rfl⟩

theorem envStr_ne_empty {v : Option String} (h : envStr v ≠ "") :
    ∃ m, v = some m ∧ m ≠ "" := by
  cases v with
  | none => simp [envStr] at h
  | some s => exact ⟨s, rfl, by simpa [envStr] using h⟩

/-! ## Claims about the orchestrator -/

/-- C1: `purchasePlan` never raises to its caller (the embedding is a
total function: every oracle behaviour, configuration, clock and random
source yields a returned `PurchaseResult`); a result with
`success = true` has no `error` field, and a result with
`success = false` is exactly the catch-block result: `username = ""`,
`password = ""`, and `error` the thrown error's message, or
`"Unknown error occurred"` when the thrown value has none. -/
theorem purchasePlan_total_shape (cfg : Config) (env : PageEnv)
    (now : DateTime) (rand : Nat → Fin 26) (planId email : String)
    (ot : OrderType) (mac : Option String) (ft : Bool) :
    ((purchasePlan cfg env now rand planId email ot mac ft).1.success = true →
      (purchasePlan cfg env now rand planId email ot mac ft).1.error = none) ∧
    ((purchasePlan cfg env now rand planId email ot mac ft).1.success = false →
      ∃ e : JsError,
        (purchasePlan cfg env now rand planId email ot mac ft).1 =
          failResult e ∧
        (purchasePlan cfg env now rand planId email ot mac ft).1.username
          = "" ∧
        (purchasePlan cfg env now rand planId email ot mac ft).1.password
          = "" ∧
        (purchasePlan cfg env now rand planId email ot mac ft).1.error =
          some (errMessage e)) := by
  cases hq : purchaseTry cfg env now rand planId email ot mac with
  | inl x =>
      obtain ⟨e, acq, s⟩ := x
      simp only [purchasePlan, hq]
      constructor
      · intro hs; simp [failResult] at hs
      · intro _; exact ⟨e, rfl, rfl, rfl, rfl⟩
  | inr x =>
      obtain ⟨r, s⟩ := x
      obtain ⟨h0, u, p, hr, -, -, -⟩ := purchaseTry_inr hq
      simp only [purchasePlan, hq]
      subst hr
      obtain ⟨hsu, her, -, -⟩ := mkSuccess_basic cfg ot mac u p
      constructor
      · intro _; exact her
      · intro hs; rw [hsu] at hs; cases hs

/-- Witness for C1: a run with an empty configuration fails with the
configuration error, and the failure shape holds there. -/
theorem purchasePlan_total_shape_witness :
    ∃ e : JsError,
      (purchasePlan cfgE envW nowW randW "BASIC" "a@b" .STANDARD none
        false).1 = failResult e ∧
      (purchasePlan cfgE envW nowW randW "BASIC" "a@b" .STANDARD none
        false).1.username = "" ∧
      (purchasePlan cfgE envW nowW randW "BASIC" "a@b" .STANDARD none
        false).1.password = "" ∧
      (purchasePlan cfgE envW nowW randW "BASIC" "a@b" .STANDARD none
        false).1.error = some (errMessage e) :=
  (purchasePlan_total_shape cfgE envW nowW randW "BASIC" "a@b" .STANDARD
    none false).2 (by decide)


/-- C2 (amended): for every result of `purchasePlan` WITH
`success = true`, exactly one of the STANDARD-only group
(`serverUrl`, `backupServers`, `m3uUrl`, `epgUrl`) and the
MAG_DEVICE-only group (`macAddress`, `portalURL`) is populated,
determined solely by `orderType`; a result with `success = false`
populates NEITHER group (this is what the counterexample forces: the
claim as stated quantifies over every returned result, but failure
results leave every optional field absent). -/
theorem purchasePlan_groups (cfg : Config) (env : PageEnv) (now : DateTime)
    (rand : Nat → Fin 26) (planId email : String) (ot : OrderType)
    (mac : Option String) (ft : Bool) :
    ((purchasePlan cfg env now rand planId email ot mac ft).1.success = true →
      ((stdPopulated (purchasePlan cfg env now rand planId email ot mac
          ft).1 ↔ ot = .STANDARD) ∧
       (magPopulated (purchasePlan cfg env now rand planId email ot mac
          ft).1 ↔ ot = .MAG_DEVICE))) ∧
    ((purchasePlan cfg env now rand planId email ot mac ft).1.success
        = false →
      ¬ stdPopulated (purchasePlan cfg env now rand planId email ot mac
          ft).1 ∧
      ¬ magPopulated (purchasePlan cfg env now rand planId email ot mac
          ft).1) := by
  cases hq : purchaseTry cfg env now rand planId email ot mac with
  | inl x =>
      obtain ⟨e, acq, s⟩ := x
      simp only [purchasePlan, hq]
      constructor
      · intro hs; simp [failResult] at hs
      · intro _
        exact ⟨by simp [stdPopulated, failResult],
          by simp [magPopulated, failResult]⟩
  | inr x =>
      obtain ⟨r, s⟩ := x
      obtain ⟨h0, u, p, hr, -, -, hcred⟩ := purchaseTry_inr hq
      simp only [purchasePlan, hq]
      subst hr
      constructor
      · intro _
        rcases hcred with ⟨hot, -, -⟩ | ⟨hot, hmac, -, -⟩
        · subst hot
          exact ⟨by simp [stdPopulated, mkSuccess_std],
            by simp [magPopulated, mkSuccess_std]⟩
        · subst hot
          obtain ⟨m, hm, -⟩ := envStr_ne_empty hmac
          exact ⟨by simp [stdPopulated, mkSuccess_mag],
            by simp [magPopulated, mkSuccess_mag, hm]⟩
      · intro hs
        rw [(mkSuccess_basic cfg ot mac u p).1] at hs; cases hs

/-- Witness for C2 (amended): a successful STANDARD run populates the
STANDARD-only group and not the MAG_DEVICE-only group. -/
theorem purchasePlan_groups_witness :
    (stdPopulated (purchasePlan cfgW envW nowW randW "BASIC"
        "jane.doe@example.com" .STANDARD none false).1 ↔
      OrderType.STANDARD = OrderType.STANDARD) ∧
    (magPopulated (purchasePlan cfgW envW nowW randW "BASIC"
        "jane.doe@example.com" .STANDARD none false).1 ↔
      OrderType.STANDARD = OrderType.MAG_DEVICE) :=
  (purchasePlan_groups cfgW envW nowW randW "BASIC" "jane.doe@example.com"
    .STANDARD none false).1 (by decide)

/-- C2 counterexample: at an empty configuration the run fails and the
returned result populates NEITHER field group, refuting "never neither"
as stated over every returned `PurchaseResult`. -/
theorem purchasePlan_groups_counterexample :
    (purchasePlan cfgE envW nowW randW "BASIC" "a@b" .STANDARD none
      false).1.success = false ∧
    ¬ stdPopulated (purchasePlan cfgE envW nowW randW "BASIC" "a@b"
      .STANDARD none false).1 ∧
    ¬ magPopulated (purchasePlan cfgE envW nowW randW "BASIC" "a@b"
      .STANDARD none false).1 := by
  decide

/-- C5: every successful STANDARD result carries
`m3uUrl = serverUrl ++ "/get.php?username=" ++ username ++ "&password="
++ password ++ "&type=m3u_plus&output=ts"` and
`epgUrl = serverUrl ++ "/xmltv.php?username=" ++ username ++ "&password="
++ password`, where `username`/`password` are the credentials carried in
the same result and `serverUrl` is the configured `IPTV_SERVER_URL`
with default `"http://ky-tv.cc:8080"` (JavaScript `||`, so an unset or
empty variable falls back to the default). -/
theorem purchasePlan_standard_urls (cfg : Config) (env : PageEnv)
    (now : DateTime) (rand : Nat → Fin 26) (planId email : String)
    (mac : Option String) (ft : Bool)
    (hs : (purchasePlan cfg env now rand planId email .STANDARD mac
      ft).1.success = true) :
    ∃ S u p,
      S = jsOr cfg.IPTV_SERVER_URL "http://ky-tv.cc:8080" ∧
      (purchasePlan cfg env now rand planId email .STANDARD mac
        ft).1.username = u ∧
      (purchasePlan cfg env now rand planId email .STANDARD mac
        ft).1.password = p ∧
      (purchasePlan cfg env now rand planId email .STANDARD mac
        ft).1.serverUrl = some S ∧
      (purchasePlan cfg env now rand planId email .STANDARD mac
        ft).1.m3uUrl = some (S ++ "/get.php?username=" ++ u ++
          "&password=" ++ p ++ "&type=m3u_plus&output=ts") ∧
      (purchasePlan cfg env now rand planId email .STANDARD mac
        ft).1.epgUrl = some (S ++ "/xmltv.php?username=" ++ u ++
          "&password=" ++ p) := by
  cases hq : purchaseTry cfg env now rand planId email .STANDARD mac with
  | inl x =>
      obtain ⟨e, acq, s⟩ := x
      rw [show (purchasePlan cfg env now rand planId email .STANDARD mac
        ft).1 = failResult e by simp only [purchasePlan, hq]] at hs
      simp [failResult] at hs
  | inr x =>
      obtain ⟨r, s⟩ := x
      obtain ⟨h0, u, p, hr, -, -, hcred⟩ := purchaseTry_inr hq
      simp only [purchasePlan, hq]
      subst hr
      refine ⟨jsOr cfg.IPTV_SERVER_URL "http://ky-tv.cc:8080", u, p,
        rfl, ?_, ?_, ?_, ?_, ?_⟩ <;> rw [mkSuccess_std]

/-- Witness for C5 at a successful STANDARD run (username
`JANEDO2501010000`, password `"aaaaaaaa"`, default server URL). -/
theorem purchasePlan_standard_urls_witness :
    ∃ S u p,
      S = jsOr cfgW.IPTV_SERVER_URL "http://ky-tv.cc:8080" ∧
      (purchasePlan cfgW envW nowW randW "BASIC" "jane.doe@example.com"
        .STANDARD none false).1.username = u ∧
      (purchasePlan cfgW envW nowW randW "BASIC" "jane.doe@example.com"
        .STANDARD none false).1.password = p ∧
      (purchasePlan cfgW envW nowW randW "BASIC" "jane.doe@example.com"
        .STANDARD none false).1.serverUrl = some S ∧
      (purchasePlan cfgW envW nowW randW "BASIC" "jane.doe@example.com"
        .STANDARD none false).1.m3uUrl = some (S ++
          "/get.php?username=" ++ u ++ "&password=" ++ p ++
          "&type=m3u_plus&output=ts") ∧
      (purchasePlan cfgW envW nowW randW "BASIC" "jane.doe@example.com"
        .STANDARD none false).1.epgUrl = some (S ++
          "/xmltv.php?username=" ++ u ++ "&password=" ++ p) :=
  purchasePlan_standard_urls cfgW envW nowW randW "BASIC"
    "jane.doe@example.com" none false (by decide)


/-- C6: for a MAG_DEVICE order, (a) when `macAddress` is absent (or
empty, which JavaScript falsiness treats identically) and the automation
reaches the validation — provider URL configured, every browser call
resolving, no login redirect — the result is exactly
`{username := "", password := "", success := false, error :=
"macAddress is required for MAG_DEVICE orders"}`; and (b) whenever a
MAG_DEVICE run succeeds, `username` equals the given `macAddress` and
`password` is empty. -/
theorem purchasePlan_mag (cfg : Config) (env : PageEnv) (now : DateTime)
    (rand : Nat → Fin 26) (planId email : String) (mac : Option String)
    (ft : Bool) :
    ((∀ n, env.outcome n = none) →
      envStr cfg.IPTV_PROVIDER_URL ≠ "" →
      jsIncludes env.urlAfterNav "login" = false →
      envStr mac = "" →
      (purchasePlan cfg env now rand planId email .MAG_DEVICE mac ft).1 =
        { username := "", password := "", success := false,
          error := some "macAddress is required for MAG_DEVICE orders" }) ∧
    ((purchasePlan cfg env now rand planId email .MAG_DEVICE mac
        ft).1.success = true →
      ∃ m, mac = some m ∧ m ≠ "" ∧
        (purchasePlan cfg env now rand planId email .MAG_DEVICE mac
          ft).1.username = m ∧
        (purchasePlan cfg env now rand planId email .MAG_DEVICE mac
          ft).1.password = "") := by
  constructor
  · intro hout hurl hlog hmac
    simp [purchasePlan, purchaseTry, doOrder, stepA, hout, hurl, hlog,
      hmac, failResult, errMessage]
  · intro hs
    cases hq : purchaseTry cfg env now rand planId email .MAG_DEVICE mac with
    | inl x =>
        obtain ⟨e, acq, s⟩ := x
        rw [show (purchasePlan cfg env now rand planId email .MAG_DEVICE
          mac ft).1 = failResult e by simp only [purchasePlan, hq]] at hs
        simp [failResult] at hs
    | inr x =>
        obtain ⟨r, s⟩ := x
        obtain ⟨h0, u, p, hr, -, -, hcred⟩ := purchaseTry_inr hq
        rcases hcred with ⟨hot, -, -⟩ | ⟨-, hmac, hu, hp⟩
        · cases hot
        · obtain ⟨m, hm, hne⟩ := envStr_ne_empty hmac
          refine ⟨m, hm, hne, ?_, ?_⟩ <;>
            simp only [purchasePlan, hq] <;> subst hr hu hp
          · rw [(mkSuccess_basic cfg .MAG_DEVICE mac (envStr mac) "").2.2.1,
              hm]
            rfl
          · exact (mkSuccess_basic cfg .MAG_DEVICE mac (envStr mac) "").2.2.2

/-- Witness for C6: with a benign page and no `macAddress` the MAG_DEVICE
run returns exactly the validation failure. -/
theorem purchasePlan_mag_witness :
    (purchasePlan cfgW envW nowW randW "BASIC" "a@b" .MAG_DEVICE none
      false).1 =
      { username := "", password := "", success := false,
        error := some "macAddress is required for MAG_DEVICE orders" } :=
  (purchasePlan_mag cfgW envW nowW randW "BASIC" "a@b" none false).1
    (fun _ => rfl) (by decide) (by decide) rfl

/-- C7: on every execution, the browser session is closed exactly once
when its acquisition (the first awaited call) succeeded, and never when
acquisition failed — over every exit path, success or failure. -/
theorem purchasePlan_close_exactly_once (cfg : Config) (env : PageEnv)
    (now : DateTime) (rand : Nat → Fin 26) (planId email : String)
    (ot : OrderType) (mac : Option String) (ft : Bool) :
    ((purchasePlan cfg env now rand planId email ot mac ft).2).count
        Action.closeBrowser =
      if env.outcome 0 = none then 1 else 0 := by
  cases hq : purchaseTry cfg env now rand planId email ot mac with
  | inl x =>
      obtain ⟨e, acq, s⟩ := x
      obtain ⟨hiff, hcnt⟩ := purchaseTry_inl hq
      simp only [purchasePlan, hq]
      cases acq with
      | true =>
          rw [if_pos (hiff.1 rfl)]
          simp [closeHere, List.count_append, hcnt]
      | false =>
          have h0 : ¬ env.outcome 0 = none := fun h => by
            simpa using hiff.2 h
          rw [if_neg h0]
          simpa using hcnt
  | inr x =>
      obtain ⟨r, s⟩ := x
      obtain ⟨h0, -, -, -, hcnt, -, -⟩ := purchaseTry_inr hq
      simp only [purchasePlan, hq]
      rw [if_pos h0]
      exact hcnt

/-- C8 (amended): in every successful run of the part_001 variant, the
trace ends with the final submission click, a navigation wait to
`networkidle0`, the fixed 2000 ms settling delay, and only then the
session release (the result is assembled after the close); the part_002
variant (see the counterexample) waits for `networkidle2` and has no
settling delay. -/
theorem purchasePlan_settle_delay (cfg : Config) (env : PageEnv)
    (now : DateTime) (rand : Nat → Fin 26) (planId email : String)
    (ot : OrderType) (mac : Option String) (ft : Bool)
    (hs : (purchasePlan cfg env now rand planId email ot mac
      ft).1.success = true) :
    ∃ t, (purchasePlan cfg env now rand planId email ot mac ft).2 =
      t ++ [Action.click "#submit_button",
            Action.waitForNavigation "networkidle0",
            Action.waitForTimeout 2000, Action.closeBrowser] := by
  cases hq : purchaseTry cfg env now rand planId email ot mac with
  | inl x =>
      obtain ⟨e, acq, s⟩ := x
      rw [show (purchasePlan cfg env now rand planId email ot mac ft).1 =
        failResult e by simp only [purchasePlan, hq]] at hs
      simp [failResult] at hs
  | inr x =>
      obtain ⟨r, s⟩ := x
      obtain ⟨-, -, -, -, -, ⟨t, ht⟩, -⟩ := purchaseTry_inr hq
      simp only [purchasePlan, hq]
      refine ⟨t ++ [.click "#user-details > ul > li > a",
        .waitForSelector "#submit_button"], ?_⟩
      rw [ht]
      simp [tailActions]

/-- Witness for C8 at a successful STANDARD run of part_001. -/
theorem purchasePlan_settle_delay_witness :
    ∃ t, (purchasePlan cfgW envW nowW randW "BASIC"
        "jane.doe@example.com" .STANDARD none false).2 =
      t ++ [Action.click "#submit_button",
            Action.waitForNavigation "networkidle0",
            Action.waitForTimeout 2000, Action.closeBrowser] :=
  purchasePlan_settle_delay cfgW envW nowW randW "BASIC"
    "jane.doe@example.com" .STANDARD none false (by decide)

/-- C8 counterexample: the part_002 variant completes a successful
STANDARD run whose trace contains no `waitForTimeout` call at all — and
its final navigation wait uses `networkidle2`, not the no-in-flight
`networkidle0` — so the claimed always-present ~2 s settling delay is
absent in that variant of `purchasePlan`. -/
theorem purchasePlanV2_no_settle_delay :
    (purchasePlanV2 cfgW envW nowW randW "BASIC" "jane.doe@example.com"
      .STANDARD none false).1.success = true ∧
    (purchasePlanV2 cfgW envW nowW randW "BASIC" "jane.doe@example.com"
      .STANDARD none false).2.filter isWaitTimeout = [] ∧
    (purchasePlanV2 cfgW envW nowW randW "BASIC" "jane.doe@example.com"
      .STANDARD none false).2.count
        (Action.waitForNavigation "networkidle2") = 1 := by
  decide


/-- C9: `generatePassword rand n` always has length exactly `n` and
consists only of lowercase ASCII letters `a`-`z`, for every random
source; the source default for the length argument is 8. -/
theorem generatePassword_spec (rand : Nat → Fin 26) (n : Nat) :
    (generatePassword rand n).length = n ∧
      (∀ c ∈ (generatePassword rand n).data, 'a' ≤ c ∧ c ≤ 'z') ∧
      (generatePassword rand).length = 8 := by
  have hlen : ∀ m, (generatePassword rand m).length = m := by
    intro m
    show ((List.range m).map _).length = m
    rw [List.length_map, List.length_range]
  refine ⟨hlen n, ?_, hlen 8⟩
  intro c hc
  have hall : ∀ c ∈ charsetChars, 'a' ≤ c ∧ c ≤ 'z' := by decide
  have hc' : c ∈ (List.range n).map (fun i =>
      charsetChars.get ((by decide : charsetChars.length = 26) ▸
        rand i)) := hc
  obtain ⟨i, -, hget⟩ := List.mem_map.1 hc'
  exact hall c (hget ▸ List.get_mem _ _ _)

/-- C10: the returned result (and even the whole performed call trace)
of `purchasePlan` is independent of `isFreeTrial`, in both source
variants: the parameter is accepted and never consulted. -/
theorem purchasePlan_isFreeTrial_independent (cfg : Config) (env : PageEnv)
    (now : DateTime) (rand : Nat → Fin 26) (planId email : String)
    (ot : OrderType) (mac : Option String) (b1 b2 : Bool) :
    purchasePlan cfg env now rand planId email ot mac b1 =
      purchasePlan cfg env now rand planId email ot mac b2 ∧
    purchasePlanV2 cfg env now rand planId email ot mac b1 =
      purchasePlanV2 cfg env now rand planId email ot mac b2 :=
  ⟨rfl, rfl⟩

end StrimoPlan
